import Mathlib

/-!
Shallow embedding of the generic request / object-materialization layer of the
GuildWars2 API client (source files GuildWars2API.py and GuildWars2-API.py),
together with theorems settling the specification claims about it.

The network is modelled by abstract server functions mapping the query
parameters of one GET request to the JSON body the server answers with;
request counts are threaded through explicitly so that pre-flight failures
(zero transport calls) and chunking behaviour are provable facts.
-/

namespace GW2

/-- JSON values as returned by the API and consumed by the client. -/
inductive JVal where
  | null
  | bool : Bool → JVal
  | num : Int → JVal
  | str : String → JVal
  | arr : List JVal → JVal
  | obj : List (String × JVal) → JVal

/-- A Python dict with string keys, kept in insertion order. -/
abbrev PyDict := List (String × JVal)

/-- Abstract server: maps the query parameters of one request to the JSON
body of the response. Endpoint paths are fixed per component and therefore
left implicit. -/
abbrev Server := List (String × JVal) → JVal

mutual

/-- Python structural equality on JSON values. -/
def jvalBeq : JVal → JVal → Bool
  | JVal.null, JVal.null => true
  | JVal.bool a, JVal.bool b => a == b
  | JVal.num a, JVal.num b => a == b
  | JVal.str a, JVal.str b => a == b
  | JVal.arr a, JVal.arr b => jlistBeq a b
  | JVal.obj a, JVal.obj b => jobjBeq a b
  | _, _ => false

/-- Python structural equality on JSON arrays. -/
def jlistBeq : List JVal → List JVal → Bool
  | [], [] => true
  | a :: as, b :: bs => jvalBeq a b && jlistBeq as bs
  | _, _ => false

/-- Python structural equality on JSON objects. -/
def jobjBeq : List (String × JVal) → List (String × JVal) → Bool
  | [], [] => true
  | (k1, v1) :: as, (k2, v2) :: bs => k1 == k2 && jvalBeq v1 v2 && jobjBeq as bs
  | _, _ => false

end

/-- First-match lookup of a key, mirroring Python dict indexing (a Python
dict holds each key at most once, so first match is the match). -/
def dlookup (k : String) : PyDict → Option JVal
  | [] => Option.none
  | p :: rest => if p.1 = k then some p.2 else dlookup k rest

/-- The key list of a PyDict. -/
def dkeys (d : PyDict) : List String := d.map Prod.fst

/-- Single Python dict assignment d[k] = v: replaces the value in place when
the key exists, otherwise appends the pair. -/
def dinsert (d : PyDict) (k : String) (v : JVal) : PyDict :=
  if k ∈ dkeys d then d.map (fun p => if p.1 = k then (k, v) else p)
  else d ++ [(k, v)]

/-- GW2Thing._update_obj (GuildWars2API.py lines 217-228): iterates over
info.items() and assigns each pair into the receiving dictionary. -/
def updateDict (d : PyDict) (info : PyDict) : PyDict :=
  info.foldl (fun acc p => dinsert acc p.1 p.2) d

/-- Python dict.get with its default of None. -/
def dGetPy (d : PyDict) (k : String) : JVal := (dlookup k d).getD JVal.null

/-- A GW2Thing, represented by the JSON-populated part of its __dict__
(the underscore-prefixed bookkeeping attributes are kept outside). -/
structure Thing where
  dict : PyDict

/-- Attribute read on a Thing. A missing attribute is mapped to null here;
Python would raise AttributeError, a case no settled claim exercises. -/
def attrPy (t : Thing) (k : String) : JVal := (dlookup k t.dict).getD JVal.null

/-- GW2Thing._update_obj as an operation on a Thing. -/
def updateObjThing (t : Thing) (info : PyDict) : Thing :=
  Thing.mk (updateDict t.dict info)

/-- Discriminates the JSON null. -/
def isNull : JVal → Bool
  | JVal.null => true
  | _ => false

/-- Reads an object as a dict; non-objects give the empty dict (the Python
code would raise when iterating items() of a non-dict, a case outside every
settled claim or guarded by a hypothesis). -/
def objD : JVal → PyDict
  | JVal.obj d => d
  | _ => []

/-- Reads an array as a list; non-arrays give the empty list. -/
def jarrD : JVal → List JVal
  | JVal.arr l => l
  | _ => []

/-- Python truthiness of a JSON value. -/
def pyTruthyJ : JVal → Bool
  | JVal.null => false
  | JVal.bool b => b
  | JVal.num n => decide (n ≠ 0)
  | JVal.str s => decide (s ≠ "")
  | JVal.arr l => !l.isEmpty
  | JVal.obj l => !l.isEmpty

/-- The error taxonomy of the client: AuthorizationRequired(Error),
TokenMissingScope and APIError. -/
inductive GWError where
  | authorizationRequired
  | tokenMissingScope
  | apiError
deriving DecidableEq

/-- GW2Thing.__init__ (GuildWars2API.py lines 192-209): a dict argument is
merged directly with no request; any other argument is stored as the id
attribute and refresh() issues one request, with parameter id unless the id
is None, merging the response into the object. Returns the Thing and the
number of requests issued. -/
def gw2ThingInit (arg : JVal) (server : Server) : Thing × Nat :=
  match arg with
  | JVal.obj d => (Thing.mk (updateDict [] d), 0)
  | x =>
      let params : List (String × JVal) := if isNull x then [] else [("id", x)]
      (Thing.mk (updateDict [("id", x)] (objD (server params))), 1)

/-- The scope gate in GW2API.__init__ (GuildWars2API.py lines 169-177).
The inputs are the class attribute _required_scopes and the value of
getattr(token_info, "permissions", []). The membership test as written in
the source ranges over scopes itself: all(s in scopes for s in scopes). -/
def gw2apiInitScopeCheck (requiredScopes : List String)
    (tokenPermissions : List String) : Except GWError Unit :=
  if !requiredScopes.isEmpty then
    let scopes := tokenPermissions
    if !(scopes.all fun s => decide (s ∈ scopes)) then
      Except.error GWError.tokenMissingScope
    else Except.ok ()
  else Except.ok ()

/-- The dynamic result of GW2Enum.get: a bare Python None (empty id list
case), a single Thing, or a list of Things. -/
inductive GetResult where
  | pynone
  | one : Thing → GetResult
  | many : List Thing → GetResult

/-- The list held by a many result, empty otherwise. -/
def GetResult.manyD : GetResult → List Thing
  | GetResult.many l => l
  | _ => []

/-- Whether a result is a list of Things. -/
def GetResult.isMany : GetResult → Bool
  | GetResult.many _ => true
  | _ => false

/-- Python range(start, stop, step) for positive step. -/
def pyRange (start stop step : Nat) : List Nat :=
  List.range' start ((stop - start + step - 1) / step) step

/-- GW2Enum.get (GuildWars2API.py lines 373-399). A missing id becomes the
string all. For a list the loop runs over range(0, len(id), 3), but the
return statement inside the loop body fires during the first iteration, so
at most one batch request is issued, for the slice id[0:20]; an empty list
skips the loop and the function falls through, returning None. Otherwise one
request with parameter id is issued and its response is handed to the Thing
constructor. The code serializes a batch as a comma-joined string in the ids
parameter; the server stub here receives the batch ids directly. -/
def enumGet (arg : Option JVal) (server : Server) : GetResult × Nat :=
  let pid := arg.getD (JVal.str "all")
  match pid with
  | JVal.arr ids =>
      match pyRange 0 ids.length 3 with
      | [] => (GetResult.pynone, 0)
      | i :: _ =>
          let batch := (ids.drop i).take 20
          let built := (jarrD (server [("ids", JVal.arr batch)])).map
            (fun g => gw2ThingInit g server)
          (GetResult.many (built.map Prod.fst), 1 + (built.map Prod.snd).sum)
  | other =>
      let r := gw2ThingInit (server [("id", other)]) server
      (GetResult.one r.1, 1 + r.2)

/-- GW2List.get_thing (GuildWars2API.py lines 324-346): a dict with a truthy
id is fetched by that id and then overlaid with the dict; a string is fetched
by id; anything else resolves to None. -/
def getThing (server : Server) (thing : JVal) : Option Thing × Nat :=
  match thing with
  | JVal.obj d =>
      if pyTruthyJ (dGetPy d "id") then
        let r := gw2ThingInit (dGetPy d "id") server
        (some (updateObjThing r.1 d), r.2)
      else (Option.none, 0)
  | JVal.str s =>
      let r := gw2ThingInit (JVal.str s) server
      (some r.1, r.2)
  | _ => (Option.none, 0)

/-- GW2List.refresh, final branch (GuildWars2API.py lines 312-319): no
companion enumeration; each reference is resolved through get_thing (the
ThreadPool map preserves order) and the None results are dropped. -/
def gw2ListRefreshPlain (refs : List JVal) (server : Server) :
    List Thing × Nat :=
  let got := refs.map (getThing server)
  (got.filterMap Prod.fst, (got.map Prod.snd).sum)

/-- GW2List.refresh, first branch (GuildWars2API.py lines 303-309), taken
when a companion enumeration is configured and every reference is a dict:
the extracted id list is resolved through the enumeration, then the result
is zipped with the reference list and each overlay dict is merged onto its
positional partner only when that partner carries the same id. -/
def gw2ListRefreshEnumAllDicts (dicts : List PyDict) (server : Server) :
    List Thing × Nat :=
  let res := enumGet (some (JVal.arr (dicts.map (fun r => dGetPy r "id")))) server
  (((GetResult.manyD res.1).zip dicts).map
      (fun p => if jvalBeq (attrPy p.1 "id") (dGetPy p.2 "id")
                then updateObjThing p.1 p.2 else p.1),
   res.2)

/-- Mutable state of a GW2List: the resolved list (None before the first
resolution), the number of refresh invocations, and the cumulative request
count. -/
structure GW2ListState where
  things : Option (List Thing)
  refreshCount : Nat
  requests : Nat

/-- GW2List.__iter__ (GuildWars2API.py lines 276-282) over the plain
configuration: refresh exactly when _things is None, then iterate the stored
list. -/
def gw2ListIterPlain (refs : List JVal) (server : Server) (st : GW2ListState) :
    List Thing × GW2ListState :=
  match st.things with
  | Option.none =>
      let r := gw2ListRefreshPlain refs server
      (r.1, GW2ListState.mk (some r.1) (st.refreshCount + 1) (st.requests + r.2))
  | some ts => (ts, st)

/-- Session state: the private token and the cached token_info. -/
structure SessionState where
  token : Option String
  tokenInfo : Option Thing

/-- GW2APISession.make_request (GuildWars2API.py lines 93-132): it has no
auth gate; transport and decode failures are translated to APIError. The
transport receives the current token (standing for the Authorization header
built from it) and the query parameters. -/
def sessionMakeRequest (token : Option String) (params : List (String × JVal))
    (transport : Option String → List (String × JVal) → Except Unit JVal) :
    Except GWError JVal :=
  match transport token params with
  | Except.error _ => Except.error GWError.apiError
  | Except.ok v => Except.ok v

/-- Token(session=...) as performed by the token setter: GW2Thing.__init__
with id None, so refresh() requests the tokeninfo endpoint with empty
parameters and merges the response. -/
def tokenInit (st : SessionState)
    (transport : Option String → List (String × JVal) → Except Unit JVal) :
    Except GWError Thing :=
  match sessionMakeRequest st.token [] transport with
  | Except.error e => Except.error e
  | Except.ok info => Except.ok (Thing.mk (updateDict [("id", JVal.null)] (objD info)))

/-- The token setter (GuildWars2API.py lines 70-79): first stores the token,
then builds token_info with a request that uses the new token; a failure of
that request leaves the token stored and token_info untouched. -/
def tokenSetter (st : SessionState) (value : String)
    (transport : Option String → List (String × JVal) → Except Unit JVal) :
    Except GWError Unit × SessionState :=
  let st1 := SessionState.mk (some value) st.tokenInfo
  match tokenInit st1 transport with
  | Except.error e => (Except.error e, st1)
  | Except.ok t => (Except.ok (), SessionState.mk (some value) (some t))

/-- Python truthiness of the broker token. -/
def pyTruthyStr : Option String → Bool
  | Option.none => false
  | some s => decide (s ≠ "")

/-- The fixed base URL shared by both generations of the client. -/
def brokerBaseUrl : String := "https://api.guildwars2.com"

/-- GuildWars2Broker.make_request (GuildWars2-API.py lines 90-145): when auth
is requested and the token is not set, AuthorizationRequired is raised before
the URL is even built; otherwise one transport call is made and its failures
are translated to APIError. The second component counts transport calls. -/
def brokerMakeRequest (token : Option String) (endpointUrl : String)
    (params : List (String × String)) (auth : Bool)
    (transport : String → List (String × String) → Except Unit JVal) :
    Except GWError JVal × Nat :=
  if auth && !(pyTruthyStr token) then
    (Except.error GWError.authorizationRequired, 0)
  else
    match transport (brokerBaseUrl ++ endpointUrl) params with
    | Except.error _ => (Except.error GWError.apiError, 1)
    | Except.ok v => (Except.ok v, 1)

/-- A server stub answering null to every request. -/
def nullServer : Server := fun _ => JVal.null

/-- Twenty one distinct ids, 0 to 20. -/
def c2Ids : List JVal := (List.range 21).map (fun n => JVal.num n)

/-- Echo server stub: answers an ids request with one object per requested
id, every requested id being valid. -/
def c2Server : Server := fun params =>
  match params with
  | [("ids", JVal.arr l)] => JVal.arr (l.map (fun i => JVal.obj [("id", i)]))
  | _ => JVal.obj []

/-- Catalog stub for the all sentinel: the catalog holds two objects; any
other request is answered with a plain object. -/
def c4Server : Server := fun params =>
  match params with
  | [("id", JVal.str "all")] =>
      JVal.arr [JVal.obj [("id", JVal.num 1)], JVal.obj [("id", JVal.num 2)]]
  | _ => JVal.obj [("note", JVal.str "fetched")]

/-- The reference list of spec property P4: two partial records carrying the
overlay field count. -/
def c5Refs : List PyDict :=
  [[("id", JVal.num 5), ("count", JVal.num 3)],
   [("id", JVal.num 7), ("count", JVal.num 1)]]

/-- Canonical catalog stub answering in request order. -/
def c5ServerIn : Server := fun _ =>
  JVal.arr [JVal.obj [("id", JVal.num 5), ("name", JVal.str "Widget")],
            JVal.obj [("id", JVal.num 7), ("name", JVal.str "Gadget")]]

/-- Canonical catalog stub answering in reversed order. -/
def c5ServerOut : Server := fun _ =>
  JVal.arr [JVal.obj [("id", JVal.num 7), ("name", JVal.str "Gadget")],
            JVal.obj [("id", JVal.num 5), ("name", JVal.str "Widget")]]

/-- The entities the in-order stub yields through enumGet. -/
def c5GotIn : List Thing :=
  [Thing.mk [("id", JVal.num 5), ("name", JVal.str "Widget")],
   Thing.mk [("id", JVal.num 7), ("name", JVal.str "Gadget")]]

/-- A transport stub that always fails. -/
def failingTransport : Option String → List (String × JVal) → Except Unit JVal :=
  fun _ _ => Except.error ()

@[simp]
theorem dkeys_nil : dkeys [] = [] := rfl

@[simp]
theorem dkeys_cons (p : String × JVal) (d : PyDict) :
    dkeys (p :: d) = p.1 :: dkeys d := rfl

theorem dlookup_map_replace (k : String) (v : JVal) (d : PyDict)
    (h : k ∈ dkeys d) :
    dlookup k (d.map (fun p => if p.1 = k then (k, v) else p)) = some v := by
  induction d with
  | nil => simp at h
  | cons p rest ih =>
      by_cases hp : p.1 = k
      · simp [dlookup, hp]
      · have hr : k ∈ dkeys rest := by
          rcases List.mem_cons.mp (by simpa using h) with h1 | h1
          · exact absurd h1.symm hp
          · exact h1
        simp [dlookup, hp, ih hr]

theorem dlookup_map_replace_ne (k kk : String) (v : JVal) (d : PyDict)
    (h : kk ≠ k) :
    dlookup kk (d.map (fun p => if p.1 = k then (k, v) else p)) = dlookup kk d := by
  induction d with
  | nil => rfl
  | cons p rest ih =>
      by_cases hp : p.1 = k
      · have h1 : ¬ (k = kk) := Ne.symm h
        have h2 : ¬ (p.1 = kk) := by rw [hp]; exact h1
        simp [dlookup, hp, h1, h2, ih]
      · simp [dlookup, hp, ih]

theorem dlookup_append_single (k : String) (v : JVal) (d : PyDict)
    (h : ¬ k ∈ dkeys d) :
    dlookup k (d ++ [(k, v)]) = some v := by
  induction d with
  | nil => simp [dlookup]
  | cons p rest ih =>
      have hp : ¬ (p.1 = k) := by
        intro e
        exact h (by simp [e])
      have hr : ¬ k ∈ dkeys rest := by
        intro e
        exact h (by simp [e])
      simp [dlookup, hp, ih hr]

theorem dlookup_append_single_ne (k kk : String) (v : JVal) (d : PyDict)
    (h : kk ≠ k) :
    dlookup kk (d ++ [(k, v)]) = dlookup kk d := by
  induction d with
  | nil => simp [dlookup, Ne.symm h]
  | cons p rest ih =>
      by_cases hp : p.1 = kk
      · simp [dlookup, hp]
      · simp [dlookup, hp, ih]

theorem dlookup_dinsert_self (d : PyDict) (k : String) (v : JVal) :
    dlookup k (dinsert d k v) = some v := by
  unfold dinsert
  by_cases h : k ∈ dkeys d
  · simp only [if_pos h]
    exact dlookup_map_replace k v d h
  · simp only [if_neg h]
    exact dlookup_append_single k v d h

theorem dlookup_dinsert_ne (d : PyDict) (k kk : String) (v : JVal)
    (h : kk ≠ k) :
    dlookup kk (dinsert d k v) = dlookup kk d := by
  unfold dinsert
  by_cases hm : k ∈ dkeys d
  · simp only [if_pos hm]
    exact dlookup_map_replace_ne k kk v d h
  · simp only [if_neg hm]
    exact dlookup_append_single_ne k kk v d h

theorem dlookup_updateDict_not_mem (info : PyDict) (d : PyDict) (k : String)
    (h : ¬ k ∈ dkeys info) :
    dlookup k (updateDict d info) = dlookup k d := by
  induction info generalizing d with
  | nil => rfl
  | cons p rest ih =>
      have hp : k ≠ p.1 := by
        intro e
        exact h (by simp [e])
      have hr : ¬ k ∈ dkeys rest := by
        intro e
        exact h (by simp [e])
      calc dlookup k (updateDict (dinsert d p.1 p.2) rest)
          = dlookup k (dinsert d p.1 p.2) := ih (dinsert d p.1 p.2) hr
        _ = dlookup k d := dlookup_dinsert_ne d p.1 k p.2 hp

theorem dlookup_updateDict_mem (info : PyDict) (d : PyDict) (k : String)
    (v : JVal) (hnd : (dkeys info).Nodup) (hm : (k, v) ∈ info) :
    dlookup k (updateDict d info) = some v := by
  induction info generalizing d with
  | nil => cases hm
  | cons p rest ih =>
      have hnd2 : (dkeys rest).Nodup := (List.nodup_cons.mp (by simpa using hnd)).2
      rcases List.mem_cons.mp hm with he | hr
      · have hk : ¬ k ∈ dkeys rest := by
          have h1 : ¬ p.1 ∈ dkeys rest :=
            (List.nodup_cons.mp (by simpa using hnd)).1
          rw [← he] at h1
          exact h1
        have : dlookup k (updateDict (dinsert d p.1 p.2) rest)
            = dlookup k (dinsert d p.1 p.2) :=
          dlookup_updateDict_not_mem rest (dinsert d p.1 p.2) k hk
        rw [show updateDict d (p :: rest) = updateDict (dinsert d p.1 p.2) rest from rfl]
        rw [this, ← he]
        exact dlookup_dinsert_self d k v
      · exact ih (dinsert d p.1 p.2) hnd2 hr

theorem zip_map_self {α β : Type _} (f : α → β) (l : List α) :
    (l.map f).zip l = l.map (fun x => (f x, x)) := by
  induction l with
  | nil => rfl
  | cons a t ih => simp [ih]

theorem map_congr_mem {α β : Type _} (l : List α) (f g : α → β)
    (h : ∀ a ∈ l, f a = g a) : l.map f = l.map g := by
  induction l with
  | nil => rfl
  | cons a t ih =>
      simp only [List.map]
      rw [h a (List.mem_cons_self a t),
        ih (fun x hx => h x (List.mem_cons_of_mem a hx))]

/-- Claim C1 (code bug evidence): the scope gate in GW2API.__init__ never
raises. Constructing a component with required scope inventories against
token permissions account succeeds, exactly as it does against the superset
holding inventories, because the check compares the permission list against
itself instead of against the required scopes. -/
theorem scopeCheck_never_raises :
    gw2apiInitScopeCheck ["inventories"] ["account"] = Except.ok () ∧
    gw2apiInitScopeCheck ["inventories"] ["account", "inventories"] = Except.ok () ∧
    ∀ requiredScopes tokenPermissions,
      gw2apiInitScopeCheck requiredScopes tokenPermissions = Except.ok () := by
  refine ⟨rfl, rfl, ?_⟩
  intro req perms
  have hall : (perms.all fun s => decide (s ∈ perms)) = true :=
    List.all_eq_true.mpr (fun s hs => decide_eq_true hs)
  simp [gw2apiInitScopeCheck, hall]

/-- Claim C2 (code bug evidence): requesting 21 valid ids through the
enumeration issues exactly one request, because the return statement fires
inside the first iteration of the chunking loop; only the first 20 ids are
covered, although ceil(21/20) = 2 requests would be needed. -/
theorem enumGet_first_batch_only :
    c2Ids.length = 21 ∧
    (enumGet (some (JVal.arr c2Ids)) c2Server).2 = 1 ∧
    (GetResult.manyD (enumGet (some (JVal.arr c2Ids)) c2Server).1).length = 20 ∧
    (c2Ids.length + 20 - 1) / 20 = 2 :=
  ⟨rfl, rfl, rfl, rfl⟩

/-- Claim C3: an authenticated request on a broker whose token is not set
fails with AuthorizationRequired and performs zero transport calls, for every
endpoint, parameter set and transport. -/
theorem broker_auth_gate (token : Option String) (endpointUrl : String)
    (params : List (String × String))
    (transport : String → List (String × String) → Except Unit JVal)
    (h : pyTruthyStr token = false) :
    brokerMakeRequest token endpointUrl params true transport
      = (Except.error GWError.authorizationRequired, 0) := by
  simp [brokerMakeRequest, h]

/-- Witness for broker_auth_gate at a concrete input. -/
theorem broker_auth_gate_witness :
    pyTruthyStr Option.none = false ∧
    brokerMakeRequest Option.none "/v2/account" [] true
        (fun _ _ => Except.ok JVal.null)
      = (Except.error GWError.authorizationRequired, 0) :=
  ⟨rfl, broker_auth_gate Option.none "/v2/account" []
      (fun _ _ => Except.ok JVal.null) rfl⟩

/-- Claim C4 counterexample: with a two-object catalog stub, get with no id
does not return a list of entities (one per response object) at all. -/
theorem enumGet_all_not_many :
    GetResult.isMany (enumGet Option.none c4Server).1 = false := rfl

/-- Claim C4 (amended): get with no id requests with parameter id set to the
string all and hands the entire response to the Thing constructor; when that
response is a list, the single resulting Thing stores the whole list as its
id attribute and one further request with that id is issued, for two requests
in total. -/
theorem enumGet_all_single_thing (server : Server) (l : List JVal) (d : PyDict)
    (h1 : server [("id", JVal.str "all")] = JVal.arr l)
    (h2 : server [("id", JVal.arr l)] = JVal.obj d) :
    enumGet Option.none server
      = (GetResult.one (Thing.mk (updateDict [("id", JVal.arr l)] d)), 2) := by
  simp [enumGet, gw2ThingInit, h1, h2, objD, isNull]

/-- Witness for enumGet_all_single_thing at the two-object catalog stub. -/
theorem enumGet_all_single_thing_witness :
    enumGet Option.none c4Server
      = (GetResult.one (Thing.mk
          [("id", JVal.arr [JVal.obj [("id", JVal.num 1)],
                            JVal.obj [("id", JVal.num 2)]]),
           ("note", JVal.str "fetched")]), 2) :=
  enumGet_all_single_thing c4Server
    [JVal.obj [("id", JVal.num 1)], JVal.obj [("id", JVal.num 2)]]
    [("note", JVal.str "fetched")] rfl rfl

/-- Claim C5 counterexample: with the P4 references but the catalog stub
answering in reversed order, no output entity receives the overlay field
count, so the merge is not paired by identity; it happens only at positions
where the zip partner happens to carry the same id. -/
theorem refresh_overlay_not_by_identity :
    ((gw2ListRefreshEnumAllDicts c5Refs c5ServerOut).1.map
        (fun t => dlookup "count" t.dict)) = [Option.none, Option.none] ∧
    (c5Refs.map (fun r => dlookup "count" r))
      = [some (JVal.num 3), some (JVal.num 1)] :=
  ⟨rfl, rfl⟩

/-- Claim C5 (amended): with a companion enumeration and all-dict references,
refresh merges each overlay dict onto the entity at the same position of the
enumeration result, and only when that entity carries the same id; whenever
the enumeration result lines up with the reference list, as in the P4
example, every output entity holds each overlay field with the overlay value
(overlay wins) and keeps every other canonical field unchanged. -/
theorem refresh_overlay_merge (dicts : List PyDict) (server : Server)
    (got : List Thing) (n : Nat)
    (hget : enumGet (some (JVal.arr (dicts.map (fun r => dGetPy r "id")))) server
      = (GetResult.many got, n))
    (halign : ∀ p ∈ got.zip dicts,
      jvalBeq (attrPy p.1 "id") (dGetPy p.2 "id") = true) :
    ∀ q ∈ (gw2ListRefreshEnumAllDicts dicts server).1.zip (got.zip dicts),
      ((dkeys q.2.2).Nodup → ∀ k v, (k, v) ∈ q.2.2 →
        dlookup k q.1.dict = some v) ∧
      (∀ k, ¬ k ∈ dkeys q.2.2 → dlookup k q.1.dict = dlookup k q.2.1.dict) := by
  have hout : (gw2ListRefreshEnumAllDicts dicts server).1
      = (got.zip dicts).map (fun p => updateObjThing p.1 p.2) := by
    simp only [gw2ListRefreshEnumAllDicts, hget, GetResult.manyD]
    exact map_congr_mem _ _ _ (fun p hp => by rw [if_pos (halign p hp)])
  intro q hq
  rw [hout, zip_map_self] at hq
  rcases List.mem_map.mp hq with ⟨x, hx, rfl⟩
  exact ⟨fun hnd k v hkv => dlookup_updateDict_mem x.2 x.1.dict k v hnd hkv,
         fun k hk => dlookup_updateDict_not_mem x.2 x.1.dict k hk⟩

/-- Witness for refresh_overlay_merge at the P4 inputs: the first output
entity carries the overlay count 3 while its canonical name field is the one
of the resolved Widget entity. -/
theorem refresh_overlay_merge_witness :
    dlookup "count" (Thing.mk [("id", JVal.num 5), ("name", JVal.str "Widget"),
        ("count", JVal.num 3)]).dict = some (JVal.num 3) ∧
    dlookup "name" (Thing.mk [("id", JVal.num 5), ("name", JVal.str "Widget"),
        ("count", JVal.num 3)]).dict
      = dlookup "name" (Thing.mk [("id", JVal.num 5),
          ("name", JVal.str "Widget")]).dict := by
  have hal : ∀ p ∈ c5GotIn.zip c5Refs,
      jvalBeq (attrPy p.1 "id") (dGetPy p.2 "id") = true := by
    intro p hp
    rcases List.mem_cons.mp hp with h1 | hp2
    · rw [h1]
      rfl
    · rcases List.mem_cons.mp hp2 with h2 | hp3
      · rw [h2]
        rfl
      · cases hp3
  have h := refresh_overlay_merge c5Refs c5ServerIn c5GotIn 1 rfl hal
  have hq : ((Thing.mk [("id", JVal.num 5), ("name", JVal.str "Widget"),
        ("count", JVal.num 3)] : Thing),
      ((Thing.mk [("id", JVal.num 5), ("name", JVal.str "Widget")] : Thing),
       ([("id", JVal.num 5), ("count", JVal.num 3)] : PyDict)))
      ∈ (gw2ListRefreshEnumAllDicts c5Refs c5ServerIn).1.zip (c5GotIn.zip c5Refs) :=
    List.mem_cons.mpr (Or.inl rfl)
  have h2 := h _ hq
  exact ⟨h2.1 (by decide) "count" (JVal.num 3)
      (List.mem_cons_of_mem ("id", JVal.num 5)
        (List.mem_cons_self ("count", JVal.num 3) [])),
    h2.2 "name" (by decide)⟩

/-- Claim C6: constructing an Entity from a pre-fetched RawRecord issues no
request, and every key of the record is afterwards readable on the Entity
with exactly the value it had in the record. -/
theorem thing_roundtrip (server : Server) (r : PyDict) (k : String) (v : JVal)
    (hnd : (dkeys r).Nodup) (hm : (k, v) ∈ r) :
    dlookup k (gw2ThingInit (JVal.obj r) server).1.dict = some v ∧
    (gw2ThingInit (JVal.obj r) server).2 = 0 :=
  ⟨dlookup_updateDict_mem r [] k v hnd hm, rfl⟩

/-- Witness for thing_roundtrip at a concrete record. -/
theorem thing_roundtrip_witness :
    dlookup "name" (gw2ThingInit (JVal.obj [("id", JVal.num 1),
        ("name", JVal.str "Widget")]) nullServer).1.dict
      = some (JVal.str "Widget") ∧
    (gw2ThingInit (JVal.obj [("id", JVal.num 1),
        ("name", JVal.str "Widget")]) nullServer).2 = 0 :=
  thing_roundtrip nullServer [("id", JVal.num 1), ("name", JVal.str "Widget")]
    "name" (JVal.str "Widget") (by decide)
    (List.mem_cons_of_mem ("id", JVal.num 1)
      (List.mem_cons_self ("name", JVal.str "Widget") []))

/-- Claim C7: with no companion enumeration, a reference list holding one
malformed entry (null) among two valid bare ids resolves to exactly two
entities, the malformed entry being silently dropped, whatever the server
answers. -/
theorem refresh_lenient_drop (server : Server) :
    ((gw2ListRefreshPlain [JVal.null, JVal.str "101", JVal.str "102"]
        server).1).length = 2 := rfl

/-- Claim C8: iterating an unresolved collection performs exactly one refresh
and one underlying fetch sequence; iterating again without an intervening
refresh returns the stored list and changes nothing. -/
theorem iter_idempotent (refs : List JVal) (server : Server) :
    (gw2ListIterPlain refs server (GW2ListState.mk Option.none 0 0)).2.refreshCount = 1 ∧
    (gw2ListIterPlain refs server (GW2ListState.mk Option.none 0 0)).2.requests
      = (gw2ListRefreshPlain refs server).2 ∧
    gw2ListIterPlain refs server
        (gw2ListIterPlain refs server (GW2ListState.mk Option.none 0 0)).2
      = gw2ListIterPlain refs server (GW2ListState.mk Option.none 0 0) := by
  refine ⟨rfl, ?_, rfl⟩
  simp [gw2ListIterPlain]

/-- Claim C9: the token setter stores the credential first and fetches the
token metadata afterwards, so when the metadata request fails the failure
propagates as APIError while the new token remains stored and token_info is
untouched. -/
theorem tokenSetter_stores_before_fetch (st : SessionState) (value : String)
    (transport : Option String → List (String × JVal) → Except Unit JVal)
    (hfail : transport (some value) [] = Except.error ()) :
    tokenSetter st value transport
      = (Except.error GWError.apiError,
         SessionState.mk (some value) st.tokenInfo) := by
  simp [tokenSetter, tokenInit, sessionMakeRequest, hfail]

/-- Witness for tokenSetter_stores_before_fetch at a concrete session. -/
theorem tokenSetter_stores_before_fetch_witness :
    failingTransport (some "TOKEN") [] = Except.error () ∧
    tokenSetter (SessionState.mk Option.none Option.none) "TOKEN" failingTransport
      = (Except.error GWError.apiError,
         SessionState.mk (some "TOKEN") Option.none) :=
  ⟨rfl, tokenSetter_stores_before_fetch (SessionState.mk Option.none Option.none)
      "TOKEN" failingTransport rfl⟩

/-- Claim C10: in the plain resolution path a reference is usable only as a
string or as a dict with truthy id; a numeric bare id resolves to None, so a
reference list of numeric ids resolves to the empty list without raising. -/
theorem numeric_refs_dropped (server : Server) (n : Int) (ns : List Int) :
    (getThing server (JVal.num n)).1 = Option.none ∧
    (gw2ListRefreshPlain (ns.map (fun m => JVal.num m)) server).1 = [] := by
  refine ⟨rfl, ?_⟩
  simp only [gw2ListRefreshPlain]
  rw [List.filterMap_eq_nil_iff]
  intro a ha
  rcases List.mem_map.mp ha with ⟨j, hj, rfl⟩
  rcases List.mem_map.mp hj with ⟨m, hm, rfl⟩
  rfl

end GW2
